import Mathlib

/-
  Verification of the Ruggine chat server core against its specification.

  The Rust sources under src/src/server (connection.rs, messages.rs,
  websocket.rs) are shallowly embedded below.  Modules that the repository
  references but that are not present under src/ (server/config.rs,
  server/auth.rs, server/users.rs, server/groups.rs, common/crypto.rs) are
  modelled from the specification; each such definition carries a doc
  comment starting with "Modelled from the spec:".
-/

deriving instance DecidableEq for Except

namespace Ruggine

/-! ## Configuration -/

/-- Modelled from the spec: `ServerConfig` (src/src/server/config.rs is not
under src/).  Only the fields the messaging engine reads are modelled:
`ENABLE_ENCRYPTION`, `ENCRYPTION_MASTER_KEY`, `MAX_MESSAGE_LENGTH` (spec §6). -/
structure ServerConfig where
  enable_encryption : Bool
  encryption_master_key : String
  max_message_length : Nat
deriving Repr, DecidableEq

/-! ## Crypto (spec §4.2; src/src/common/crypto.rs is not under src/) -/

/-- Abstract AEAD ciphertext: the model records the plaintext and the key it
was sealed under, so that decryption with the same key recovers the plaintext
and decryption with any other key fails authentication. -/
structure Ciphertext where
  payload : String
  key : String
deriving Repr, DecidableEq

/-- The lexicographic string order, computed on the character lists.  Rust's
`Ord for String` compares UTF-8 bytes, which coincides with the code-point
lexicographic order used here. -/
def le_str (a b : String) : Prop := a.data ≤ b.data

instance : DecidableRel le_str :=
  fun a b => inferInstanceAs (Decidable (a.data ≤ b.data))

instance : IsTotal String le_str := ⟨fun a b => le_total a.data b.data⟩

instance : IsTrans String le_str := ⟨fun _ _ _ h h2 => le_trans h h2⟩

instance : IsAntisymm String le_str :=
  ⟨fun _ _ h h2 => String.toList_inj.mp (le_antisymm h h2)⟩

/-- Sorting of a list of ids by the natural (lexicographic) string order;
`Vec::sort()` in the Rust source. -/
def sortStrings (l : List String) : List String :=
  List.insertionSort le_str l

/-- Modelled from the spec: `CryptoManager::generate_chat_key` (§4.2) is
deterministic over the set of participant ids; it MUST sort the participants
before mixing them with the master key through a keyed KDF.  The model mixes
the sorted ids and the master key injectively. -/
def CryptoManager.generate_chat_key (participants : List String) (master_key : String) : String :=
  String.intercalate "," (sortStrings participants) ++ ";" ++ master_key

/-- Modelled from the spec: `CryptoManager::encrypt_message` (§4.2), an AEAD
whose nonce is random per call; the nonce is passed explicitly here. -/
def CryptoManager.encrypt_message (plaintext chat_key nonce : String) :
    Except String (Ciphertext × String) :=
  Except.ok (⟨plaintext, chat_key⟩, nonce)

/-- Modelled from the spec: `CryptoManager::decrypt_message` (§4.2); the AEAD
authenticates, so decryption succeeds exactly under the sealing key. -/
def CryptoManager.decrypt_message (ct : Ciphertext) (nonce chat_key : String) :
    Except String String :=
  if ct.key = chat_key then Except.ok ct.payload
  else Except.error ("aead authentication failure for nonce " ++ nonce)

/-- The `message` column of `encrypted_messages`: either the JSON envelope
written by `encrypt_message_for_storage` or a plain string (a legacy row, or a
row written with encryption disabled).  The JSON-shape test that
`decrypt_message_from_storage` performs with `serde_json::from_str` is
abstracted by the constructor distinction. -/
inductive StoredMsg where
  | plain (text : String)
  | envelope (ct : Ciphertext) (nonce : String)
deriving Repr, DecidableEq

/-- The raw database string of a stored message: a `plain` row is the string
itself, an envelope row is its JSON text (modelled injectively; base64 of the
source is abstracted). -/
def StoredMsg.raw : StoredMsg → String
  | .plain t => t
  | .envelope ct nonce =>
      "\x7b\"ciphertext\":\"" ++ ct.payload ++ "#" ++ ct.key ++
      "\",\"nonce\":\"" ++ nonce ++ "\"\x7d"

/-- Embeds `encrypt_message_for_storage` (src/src/server/messages.rs lines
11-34): with encryption disabled the message is stored as-is; otherwise the
chat key is derived from the participants and the master key and the AEAD
envelope is stored. -/
def encrypt_message_for_storage (message : String) (chat_participants : List String)
    (config : ServerConfig) (nonce : String) : Except String StoredMsg :=
  if config.enable_encryption = false then Except.ok (.plain message)
  else
    let chat_key := CryptoManager.generate_chat_key chat_participants config.encryption_master_key
    match CryptoManager.encrypt_message message chat_key nonce with
    | Except.ok (ciphertext, n) => Except.ok (.envelope ciphertext n)
    | Except.error _ => Except.error "Encryption failed"

/-- Embeds `decrypt_message_from_storage` (src/src/server/messages.rs lines
37-69): with encryption disabled the stored string is returned as-is; an
envelope is decrypted under the key derived from `chat_participants`; a
non-envelope row is a legacy plaintext returned as-is. -/
def decrypt_message_from_storage (stored : StoredMsg) (chat_participants : List String)
    (config : ServerConfig) : Except String String :=
  if config.enable_encryption = false then Except.ok stored.raw
  else
    match stored with
    | .envelope ct nonce =>
        let chat_key := CryptoManager.generate_chat_key chat_participants config.encryption_master_key
        match CryptoManager.decrypt_message ct nonce chat_key with
        | Except.ok decrypted => Except.ok decrypted
        | Except.error _ => Except.error "Decryption failed"
    | .plain t => Except.ok t

/-! ## Database model -/

/-- One row of the `encrypted_messages` table (spec §3): `id` is the
autoincrement integer key, `sent_at` a unix timestamp. -/
structure MsgRow where
  id : Nat
  chat_id : String
  sender_id : String
  message : StoredMsg
  sent_at : Int
deriving Repr, DecidableEq

/-- The slice of the relational store the messaging engine touches.
`valid_sessions` models `auth::validate_session` (src/src/server/auth.rs is
not under src/): per the spec (§4.3) a token is valid iff its session row
exists and has not expired, so the model carries the set of currently-valid
`(token, user_id)` pairs directly. -/
structure Db where
  users : List (String × String)
  valid_sessions : List (String × String)
  groups : List String
  group_members : List (String × String)
  messages : List MsgRow
  next_msg_id : Nat
deriving Repr, DecidableEq

/-- Modelled from the spec: `auth::validate_session` (§4.3): `Some(user_id)`
iff the token names a currently-valid session. -/
def validate_session (db : Db) (session_token : String) : Option String :=
  (db.valid_sessions.find? (fun p => p.1 = session_token)).map (fun p => p.2)

/-- Embeds `SELECT id FROM users WHERE username = ?`. -/
def find_user_id (db : Db) (username : String) : Option String :=
  (db.users.find? (fun p => p.2 = username)).map (fun p => p.1)

/-- Embeds `SELECT username FROM users WHERE id = ?`. -/
def lookup_username (db : Db) (user_id : String) : Option String :=
  (db.users.find? (fun p => p.1 = user_id)).map (fun p => p.2)

/-- Embeds `SELECT 1 FROM group_members WHERE group_id = ? AND user_id = ?`. -/
def is_member (db : Db) (group_id user_id : String) : Bool :=
  db.group_members.contains (group_id, user_id)

/-- Embeds `SELECT user_id FROM group_members WHERE group_id = ?`. -/
def members_of (db : Db) (group_id : String) : List String :=
  (db.group_members.filter (fun p => p.1 = group_id)).map (fun p => p.2)

/-- Embeds `SELECT id FROM groups WHERE id = ?` as a membership test. -/
def group_exists (db : Db) (group_id : String) : Bool :=
  db.groups.contains group_id

/-- Embeds `INSERT INTO encrypted_messages (chat_id, sender_id, message,
sent_at) VALUES (?, ?, ?, ?)`; the autoincrement key is `next_msg_id`. -/
def insert_message (db : Db) (chat_id sender_id : String) (m : StoredMsg) (sent_at : Int) : Db :=
  { db with
      messages := db.messages ++ [⟨db.next_msg_id, chat_id, sender_id, m, sent_at⟩],
      next_msg_id := db.next_msg_id + 1 }

/-! ## Private chat identifier (messages.rs lines 156-158, 283-285, 364-366;
the three occurrences in the source are textually identical, so they are
factored into one definition here) -/

/-- Embeds `format!("private:{}-{}", ids[0], ids[1])`. -/
def fmt_private_chat_id (ids : List String) : String :=
  "private:" ++ ids.getD 0 "" ++ "-" ++ ids.getD 1 ""

/-- Embeds `let mut ids = vec![user_id, to_id]; ids.sort();` followed by the
format call above. -/
def private_chat_id (u v : String) : String :=
  fmt_private_chat_id (sortStrings [u, v])

/-! ## SQL ordering contract -/

/-- The rows of one chat, in table order: embeds the WHERE clause of
`SELECT sender_id, message, sent_at FROM encrypted_messages WHERE chat_id = ?`. -/
def chat_rows (msgs : List MsgRow) (chat_id : String) : List MsgRow :=
  msgs.filter (fun r => r.chat_id = chat_id)

/-- The contract of `... WHERE chat_id = ? ORDER BY sent_at ASC` (messages.rs
lines 212-215 and 286-289): the result is some permutation of the matching
rows that is non-decreasing in `sent_at`.  SQL promises nothing about the
relative order of rows with equal `sent_at`; in particular the query does not
ask for an `id` tiebreak. -/
def order_by_sent_at_asc (msgs : List MsgRow) (chat_id : String) (out : List MsgRow) : Prop :=
  out.Perm (chat_rows msgs chat_id) ∧
  out.Pairwise (fun a b => a.sent_at ≤ b.sent_at)

instance (msgs : List MsgRow) (chat_id : String) (out : List MsgRow) :
    Decidable (order_by_sent_at_asc msgs chat_id out) := by
  unfold order_by_sent_at_asc; infer_instance

/-- The `(sent_at ASC, id ASC)` order the spec asserts for readers (§3, §5). -/
def claimed_msg_order (a b : MsgRow) : Prop :=
  a.sent_at < b.sent_at ∨ (a.sent_at = b.sent_at ∧ a.id ≤ b.id)

instance (a b : MsgRow) : Decidable (claimed_msg_order a b) := by
  unfold claimed_msg_order; infer_instance

/-! ## Message operations (src/src/server/messages.rs) -/

/-- Embeds `Vec::join(sep)` of the Rust standard library. -/
def join_sep (sep : String) : List String → String
  | [] => ""
  | [x] => x
  | x :: rest => x ++ sep ++ join_sep sep rest

/-- Embeds `format!("[{}] {}: {}", ts, sender_name, clear)`. -/
def format_msg_line (ts : Int) (sender clear : String) : String :=
  "[" ++ toString ts ++ "] " ++ sender ++ ": " ++ clear

/-- Embeds `send_private_message` (messages.rs lines 140-184).  `now` is the
`chrono::Utc::now().timestamp()` value and `nonce` the AEAD nonce drawn inside
encryption.  The order of the checks is the source's: length limit first, then
session validation, then recipient lookup. -/
def send_private_message (db : Db) (session_token to_username message : String)
    (config : ServerConfig) (now : Int) (nonce : String) : Db × String :=
  if message.length > config.max_message_length then
    (db, "ERR: Message too long (max " ++ toString config.max_message_length ++ " chars)")
  else
    match validate_session db session_token with
    | none => (db, "ERR: Invalid session")
    | some user_id =>
      match find_user_id db to_username with
      | none => (db, "ERR: User not found")
      | some to_id =>
        let ids := sortStrings [user_id, to_id]
        let chat_id := fmt_private_chat_id ids
        match encrypt_message_for_storage message ids config nonce with
        | Except.error e => (db, "ERR: Encryption failed: " ++ e)
        | Except.ok enc => (insert_message db chat_id user_id enc now, "OK: Message sent")

/-- Embeds `send_group_message` (messages.rs lines 71-138); same threading of
`now` and `nonce` as the private send. -/
def send_group_message (db : Db) (session_token group_name message : String)
    (config : ServerConfig) (now : Int) (nonce : String) : Db × String :=
  if message.length > config.max_message_length then
    (db, "ERR: Message too long (max " ++ toString config.max_message_length ++ " chars)")
  else
    match validate_session db session_token with
    | none => (db, "ERR: Invalid session")
    | some user_id =>
      if group_exists db group_name = false then (db, "ERR: Group not found")
      else if is_member db group_name user_id = false then (db, "ERR: Not a group member")
      else
        let group_members := members_of db group_name
        match encrypt_message_for_storage message group_members config nonce with
        | Except.error e => (db, "ERR: Encryption failed: " ++ e)
        | Except.ok enc =>
            (insert_message db ("group:" ++ group_name) user_id enc now, "OK: Message sent")

/-- The content lines a private retrieval renders for the queried rows
(the `filter_map` body of messages.rs lines 292-308): the display sender is
the caller's own username for self messages and the peer's username
otherwise; a failed decryption substitutes the raw stored string
(`msg.clone()` in the source). -/
def private_chat_lines (rows : List MsgRow) (user_id my_username other_username : String)
    (ids : List String) (config : ServerConfig) : List String :=
  rows.map (fun r =>
    let sender_name := if r.sender_id = user_id then my_username else other_username
    let clear :=
      match decrypt_message_from_storage r.message ids config with
      | Except.ok s => s
      | Except.error _ => r.message.raw
    format_msg_line r.sent_at sender_name clear)

/-- Embeds `get_private_messages` (messages.rs lines 259-316).  `rows` stands
for the result of the `ORDER BY sent_at ASC` query on the derived chat id;
it is passed as a parameter because SQL leaves the order of equal keys open
(see `order_by_sent_at_asc`). -/
def get_private_messages (db : Db) (rows : List MsgRow)
    (session_token other_username : String) (config : ServerConfig) : String :=
  match validate_session db session_token with
  | none => "ERR: Invalid session"
  | some user_id =>
    let my_username := (lookup_username db user_id).getD "Unknown"
    match find_user_id db other_username with
    | none => "ERR: User not found"
    | some to_id =>
      let ids := sortStrings [user_id, to_id]
      "OK: Messages:\n" ++
        join_sep "\n" (private_chat_lines rows user_id my_username other_username ids config)

/-- The content lines a group retrieval renders (the loop body of messages.rs
lines 229-249): the display sender is the stored username, falling back to the
sender id; a failed decryption substitutes the literal placeholder. -/
def group_chat_lines (db : Db) (rows : List MsgRow) (group_members : List String)
    (config : ServerConfig) : List String :=
  rows.map (fun r =>
    let sender_name := (lookup_username db r.sender_id).getD r.sender_id
    let clear :=
      match decrypt_message_from_storage r.message group_members config with
      | Except.ok s => s
      | Except.error _ => "[DECRYPTION FAILED]"
    format_msg_line r.sent_at sender_name clear)

/-- Embeds `get_group_messages` (messages.rs lines 186-257); `rows` as in
`get_private_messages`. -/
def get_group_messages (db : Db) (rows : List MsgRow)
    (session_token group_name : String) (config : ServerConfig) : String :=
  match validate_session db session_token with
  | none => "ERR: Invalid session"
  | some user_id =>
    if group_exists db group_name = false then "ERR: Group not found"
    else if is_member db group_name user_id = false then "ERR: Not a group member"
    else
      let group_members := members_of db group_name
      "OK: Messages:\n" ++
        join_sep "\n" (group_chat_lines db rows group_members config)

/-- Embeds `delete_group_messages` (messages.rs lines 318-349). -/
def delete_group_messages (db : Db) (session_token group_id : String) : Db × String :=
  match validate_session db session_token with
  | none => (db, "ERR: Invalid session")
  | some user_id =>
    if is_member db group_id user_id = false then (db, "ERR: Not a group member")
    else
      let chat_id := "group:" ++ group_id
      ({ db with messages := db.messages.filter (fun r => r.chat_id ≠ chat_id) },
       "OK: Messages deleted")

/-- Embeds `delete_private_messages` (messages.rs lines 351-381). -/
def delete_private_messages (db : Db) (session_token other_username : String) : Db × String :=
  match validate_session db session_token with
  | none => (db, "ERR: Invalid session")
  | some user_id =>
    match find_user_id db other_username with
    | none => (db, "ERR: User not found")
    | some to_id =>
      let ids := sortStrings [user_id, to_id]
      let chat_id := fmt_private_chat_id ids
      ({ db with messages := db.messages.filter (fun r => r.chat_id ≠ chat_id) },
       "OK: Messages deleted")

/-! ## Spec-modelled leaf handlers (auth.rs, users.rs, groups.rs are not
under src/).  Only the fact that the dispatcher reaches them after its own
session validation matters to the claims; their response strings follow the
spec's scenarios (§8). -/

/-- Modelled from the spec: `users::send_friend_request` (§4.4). -/
def users.send_friend_request (db : Db) (_uid to_username _message : String) : String :=
  if (find_user_id db to_username).isSome then "OK: Friend request sent"
  else "ERR: User not found"

/-- Modelled from the spec: `users::accept_friend_request` (§4.4). -/
def users.accept_friend_request (db : Db) (_uid from_username : String) : String :=
  if (find_user_id db from_username).isSome then "OK: Friend request accepted"
  else "ERR: User not found"

/-- Modelled from the spec: `users::reject_friend_request` (§4.4). -/
def users.reject_friend_request (db : Db) (_uid from_username : String) : String :=
  if (find_user_id db from_username).isSome then "OK: Friend request rejected"
  else "ERR: User not found"

/-- Modelled from the spec: `users::list_friends` (§4.4). -/
def users.list_friends (_db : Db) (_uid : String) : String := "OK: "

/-- Modelled from the spec: `users::received_friend_requests` (§4.4). -/
def users.received_friend_requests (_db : Db) (_uid : String) : String := "OK: "

/-- Modelled from the spec: `users::sent_friend_requests` (§4.4). -/
def users.sent_friend_requests (_db : Db) (_uid : String) : String := "OK: "

/-- Modelled from the spec: `users::help` (§4.7). -/
def users.help : String := "OK: Commands: ..."

/-- Modelled from the spec: `users::list_online` (§4.4). -/
def users.list_online (db : Db) : String :=
  "OK: " ++ String.intercalate ", " (db.users.map (fun p => p.2))

/-- Modelled from the spec: `users::list_all` (§4.4). -/
def users.list_all (db : Db) (_exclude : Option String) : String :=
  "OK: " ++ String.intercalate ", " (db.users.map (fun p => p.2))

/-- Modelled from the spec: `auth::logout` (§4.3): deletes the session or
fails on an unknown token. -/
def auth.logout (db : Db) (token : String) : String :=
  if (validate_session db token).isSome then "OK: Logged out"
  else "ERR: Invalid session"

/-- Modelled from the spec: `auth::register` (§4.3, §8 scenario 1). -/
def auth.register (db : Db) (username _password : String) (_config : ServerConfig) : String :=
  if (find_user_id db username).isSome then "ERR: Username taken" else "OK: Registered"

/-- Modelled from the spec: `auth::login` (§4.3, §8 scenario 1); the issued
token is abstracted as a function of the username. -/
def auth.login (db : Db) (username _password : String) (_config : ServerConfig) : String :=
  if (find_user_id db username).isSome then
    "OK: Logged in SESSION:tok-" ++ username
  else "ERR: Invalid credentials"

/-- Modelled from the spec: `groups::create_group` (§4.5). -/
def groups.create_group (_db : Db) (_uid name : String) : String :=
  "OK: Group created " ++ name

/-- Modelled from the spec: `groups::my_groups` (§4.5). -/
def groups.my_groups (db : Db) (uid : String) : String :=
  "OK: " ++ String.intercalate ", " ((db.group_members.filter (fun p => p.2 = uid)).map (fun p => p.1))

/-- Modelled from the spec: `groups::invite` (§4.5). -/
def groups.invite (_db : Db) (_uid _group_id _username : String) : String := "OK: Invite sent"

/-- Modelled from the spec: `groups::accept_invite` (§4.5). -/
def groups.accept_invite (_db : Db) (_uid _invite_id : String) : String := "OK: Joined"

/-- Modelled from the spec: `groups::reject_invite` (§4.5). -/
def groups.reject_invite (_db : Db) (_uid _invite_id : String) : String := "OK: Invite rejected"

/-- Modelled from the spec: `groups::my_invites` (§4.5). -/
def groups.my_invites (_db : Db) (_uid : String) : String := "OK: "

/-- Modelled from the spec: `groups::join_group` (§4.5). -/
def groups.join_group (_db : Db) (_uid _group_id : String) : String := "OK: Joined group"

/-- Modelled from the spec: `groups::leave_group` (§4.5). -/
def groups.leave_group (_db : Db) (_uid _group_id : String) : String := "OK: Left group"

/-! ## Command dispatcher (src/src/server/connection.rs) -/

/-- Embeds `Server::handle_command` (connection.rs lines 85-282): the match
over the command word with its argument-count guards, in source order; an arm
whose guard fails falls through to the catch-all.  `qrows` stands for the
result of the message query performed by whichever `/get_*` branch executes
(see `order_by_sent_at_asc`); `now` and `nonce` are threaded to the message
sends.  Handlers that only produce a response leave the database unchanged. -/
def Server.handle_command (db : Db) (config : ServerConfig) (now : Int) (nonce : String)
    (qrows : List MsgRow) (cmd : String) (args : List String) : Db × String :=
  if cmd = "/send_friend_request" ∧ 2 ≤ args.length then
    match validate_session db (args.getD 0 "") with
    | some uid =>
        (db, users.send_friend_request db uid (args.getD 1 "")
               (join_sep " " (args.drop 2)))
    | none => (db, "ERR: Invalid or expired session")
  else if cmd = "/accept_friend_request" ∧ args.length = 2 then
    match validate_session db (args.getD 0 "") with
    | some uid => (db, users.accept_friend_request db uid (args.getD 1 ""))
    | none => (db, "ERR: Invalid or expired session")
  else if cmd = "/reject_friend_request" ∧ args.length = 2 then
    match validate_session db (args.getD 0 "") with
    | some uid => (db, users.reject_friend_request db uid (args.getD 1 ""))
    | none => (db, "ERR: Invalid or expired session")
  else if cmd = "/list_friends" ∧ args.length = 1 then
    match validate_session db (args.getD 0 "") with
    | some uid => (db, users.list_friends db uid)
    | none => (db, "ERR: Invalid or expired session")
  else if cmd = "/received_friend_requests" ∧ args.length = 1 then
    match validate_session db (args.getD 0 "") with
    | some uid => (db, users.received_friend_requests db uid)
    | none => (db, "ERR: Invalid or expired session")
  else if cmd = "/sent_friend_requests" ∧ args.length = 1 then
    match validate_session db (args.getD 0 "") with
    | some uid => (db, users.sent_friend_requests db uid)
    | none => (db, "ERR: Invalid or expired session")
  else if cmd = "/help" then (db, users.help)
  else if cmd = "/quit" then (db, "OK: Disconnected")
  else if cmd = "/logout" ∧ args.length = 1 then (db, auth.logout db (args.getD 0 ""))
  else if cmd = "/validate_session" ∧ args.length = 1 then
    match validate_session db (args.getD 0 "") with
    | some uid =>
        match lookup_username db uid with
        | some username => (db, "OK: " ++ username)
        | none => (db, "ERR: User not found")
    | none => (db, "ERR: Invalid or expired session")
  else if cmd = "/register" ∧ args.length = 2 then
    (db, auth.register db (args.getD 0 "") (args.getD 1 "") config)
  else if cmd = "/login" ∧ args.length = 2 then
    (db, auth.login db (args.getD 0 "") (args.getD 1 "") config)
  else if cmd = "/users" then (db, users.list_online db)
  else if cmd = "/all_users" then (db, users.list_all db none)
  else if cmd = "/create_group" ∧ args.length = 2 then
    match validate_session db (args.getD 0 "") with
    | some uid => (db, groups.create_group db uid (args.getD 1 ""))
    | none => (db, "ERR: Invalid or expired session")
  else if cmd = "/my_groups" ∧ args.length = 1 then
    match validate_session db (args.getD 0 "") with
    | some uid => (db, groups.my_groups db uid)
    | none => (db, "ERR: Invalid or expired session")
  else if cmd = "/invite" ∧ args.length = 3 then
    match validate_session db (args.getD 0 "") with
    | some uid => (db, groups.invite db uid (args.getD 1 "") (args.getD 2 ""))
    | none => (db, "ERR: Invalid or expired session")
  else if cmd = "/accept_invite" ∧ args.length = 2 then
    match validate_session db (args.getD 0 "") with
    | some uid => (db, groups.accept_invite db uid (args.getD 1 ""))
    | none => (db, "ERR: Invalid or expired session")
  else if cmd = "/reject_invite" ∧ args.length = 2 then
    match validate_session db (args.getD 0 "") with
    | some uid => (db, groups.reject_invite db uid (args.getD 1 ""))
    | none => (db, "ERR: Invalid or expired session")
  else if cmd = "/my_invites" ∧ args.length = 1 then
    match validate_session db (args.getD 0 "") with
    | some uid => (db, groups.my_invites db uid)
    | none => (db, "ERR: Invalid or expired session")
  else if cmd = "/join_group" ∧ args.length = 2 then
    match validate_session db (args.getD 0 "") with
    | some uid => (db, groups.join_group db uid (args.getD 1 ""))
    | none => (db, "ERR: Invalid or expired session")
  else if cmd = "/leave_group" ∧ args.length = 2 then
    match validate_session db (args.getD 0 "") with
    | some uid => (db, groups.leave_group db uid (args.getD 1 ""))
    | none => (db, "ERR: Invalid or expired session")
  else if cmd = "/send" ∧ 3 ≤ args.length then
    send_group_message db (args.getD 0 "") (args.getD 1 "")
      (join_sep " " (args.drop 2)) config now nonce
  else if (cmd = "/send_private" ∨ cmd = "/private") ∧ 3 ≤ args.length then
    send_private_message db (args.getD 0 "") (args.getD 1 "")
      (join_sep " " (args.drop 2)) config now nonce
  else if cmd = "/get_group_messages" ∧ args.length = 2 then
    (db, get_group_messages db qrows (args.getD 0 "") (args.getD 1 "") config)
  else if cmd = "/get_private_messages" ∧ args.length = 2 then
    (db, get_private_messages db qrows (args.getD 0 "") (args.getD 1 "") config)
  else if cmd = "/delete_group_messages" ∧ args.length = 2 then
    delete_group_messages db (args.getD 0 "") (args.getD 1 "")
  else if cmd = "/delete_private_messages" ∧ args.length = 2 then
    delete_private_messages db (args.getD 0 "") (args.getD 1 "")
  else (db, "ERR: Unknown or invalid command")

/-- Embeds `str::trim()` of the Rust standard library: strip leading and
trailing whitespace (computed over the character list). -/
def rust_trim (s : String) : String :=
  String.mk (((s.data.dropWhile (fun c => c.isWhitespace)).reverse.dropWhile
      (fun c => c.isWhitespace)).reverse)

/-- Accumulating worker for `split_whitespace`: `acc` holds the reversed
characters of the fragment currently being read. -/
def split_ws_aux : List Char → List Char → List String
  | [], acc => if acc.isEmpty then [] else [String.mk acc.reverse]
  | c :: rest, acc =>
      if c.isWhitespace then
        if acc.isEmpty then split_ws_aux rest []
        else String.mk acc.reverse :: split_ws_aux rest []
      else split_ws_aux rest (c :: acc)

/-- Embeds `str::split_whitespace()` of the Rust standard library: the
maximal whitespace-free fragments of the string, in order. -/
def split_whitespace (s : String) : List String :=
  split_ws_aux s.data []

/-- Embeds one iteration of the read loop of `handle_client` (connection.rs
lines 290-307): trim the line, ignore it when empty, split it on whitespace
into the command word and its arguments, dispatch, and write the response
followed by `"\n"`.  The returned string is exactly the bytes written to the
connection for this request (`none` when the line was ignored). -/
def handle_line (db : Db) (config : ServerConfig) (now : Int) (nonce : String)
    (qrows : List MsgRow) (line : String) : Db × Option String :=
  let trimmed := rust_trim line
  if trimmed = "" then (db, none)
  else
    let parts := split_whitespace trimmed
    let cmd := parts.headD ""
    let args := parts.tail
    let r := Server.handle_command db config now nonce qrows cmd args
    (r.1, some (r.2 ++ "\n"))

/-- The bytes `handle_client` writes for one response (connection.rs lines
304-306): the response string followed by one `"\n"`. -/
def wire_bytes (resp : String) : String := resp ++ "\n"

/-- Each line followed by `"\n"`, concatenated. -/
def terminated_lines : List String → String
  | [] => ""
  | l :: rest => l ++ "\n" ++ terminated_lines rest

/-- The framing the spec prescribes for a multi-line batch (§4.7), written
from the spec's words for comparison with the source: one header line, one
content line per message each terminated by `"\n"`, then an empty line that
terminates the batch. -/
def spec_multiline_frame (content_lines : List String) : String :=
  "OK: Messages:\n" ++ terminated_lines content_lines ++ "\n"

/-- Embeds the client-side command construction of
`ChatService::send_private_message` (src/src/client/services/chat_service.rs
line 330): `format!("/send_private_message {} {} {}", session_token, to, msg)`. -/
def client_private_send_line (session_token to_username msg : String) : String :=
  "/send_private_message " ++ session_token ++ " " ++ to_username ++ " " ++ msg

/-- Embeds the client-side command construction of
`ChatService::send_group_message` (src/src/client/services/chat_service.rs
line 366). -/
def client_group_send_line (session_token group_id msg : String) : String :=
  "/send_group_message " ++ session_token ++ " " ++ group_id ++ " " ++ msg

/-! ## WebSocket connection registry (src/src/server/websocket.rs) -/

/-- HashMap.get over an association list keyed by strings. -/
def lookupA : List (String × String) → String → Option String
  | [], _ => none
  | (k', v) :: t, k => if k' = k then some v else lookupA t k

/-- HashMap.remove: drops every binding of the key. -/
def eraseA : List (String × String) → String → List (String × String)
  | [], _ => []
  | (k', v) :: t, k => if k' = k then eraseA t k else (k', v) :: eraseA t k

/-- HashMap.insert: binds the key, displacing any existing binding. -/
def insertA (m : List (String × String)) (k v : String) : List (String × String) :=
  (k, v) :: eraseA m k

/-- The registry state of `ChatWebSocketManager` (websocket.rs lines 55-64):
`connections` maps client_id to the connection's user_id, `user_connections`
maps user_id to client_id.  `tasks` records the `(client_id, user_id)` pairs
captured by spawned receive-tasks whose cleanup block (lines 291-298) has not
run yet. -/
structure HubState where
  connections : List (String × String)
  user_connections : List (String × String)
  tasks : List (String × String)
deriving Repr, DecidableEq

/-- The registry mutations of websocket.rs, serialised by the registry lock:
`add_connection` (lines 230-242) inserts the fresh client into both maps and
spawns the receive task; `disconnect` is the cleanup block (lines 291-298),
which removes its own client_id from `connections` and its user_id — whatever
that user's current binding is — from `user_connections`. -/
inductive HubStep : HubState → HubState → Prop
  | add_connection (s : HubState) (user_id client_id : String)
      (fresh_conn : lookupA s.connections client_id = none)
      (fresh_task : ∀ u, (client_id, u) ∉ s.tasks) :
      HubStep s ⟨insertA s.connections client_id user_id,
                 insertA s.user_connections user_id client_id,
                 (client_id, user_id) :: s.tasks⟩
  | disconnect (s : HubState) (client_id user_id : String)
      (live : (client_id, user_id) ∈ s.tasks) :
      HubStep s ⟨eraseA s.connections client_id,
                 eraseA s.user_connections user_id,
                 s.tasks.erase (client_id, user_id)⟩

/-- Registry states reachable from the empty registry. -/
inductive HubReachable : HubState → Prop
  | init : HubReachable ⟨[], [], []⟩
  | step {s t : HubState} : HubReachable s → HubStep s t → HubReachable t

/-- The single-connection-per-user property the claim asserts of every
reachable registry state: every `user_connections` entry points at a live
connection of that user, and that user has no other live connection. -/
def single_conn_per_user (s : HubState) : Prop :=
  ∀ u c, lookupA s.user_connections u = some c →
    lookupA s.connections c = some u ∧
    ∀ c', lookupA s.connections c' = some u → c' = c

/-- The invariant actually maintained by the registry mutations: every
`user_connections` entry points at a live connection of that user, every
pending receive-task's client is live with that task's user, and no two
pending tasks share a client id. -/
def hub_inv (s : HubState) : Prop :=
  (∀ u c, lookupA s.user_connections u = some c → lookupA s.connections c = some u) ∧
  (∀ c u, (c, u) ∈ s.tasks → lookupA s.connections c = some u) ∧
  (s.tasks.map Prod.fst).Nodup

/-! ## Concrete fixtures used by the closed theorems -/

/-- A small concrete store: users alice (`u1`) and bob (`u2`), one valid
session `tok` for alice, and a group `g` containing both. -/
def dbA : Db :=
  ⟨[("u1", "alice"), ("u2", "bob")], [("tok", "u1")], ["g"],
   [("g", "u1"), ("g", "u2")], [], 0⟩

/-- Configuration with payload encryption disabled. -/
def cfgPlain : ServerConfig := ⟨false, "mk", 100⟩

/-- Configuration with payload encryption enabled. -/
def cfgEnc : ServerConfig := ⟨true, "mk", 100⟩

/-- Configuration with `MAX_MESSAGE_LENGTH = 8` (spec §8 scenario 5). -/
def cfgShort : ServerConfig := ⟨false, "mk", 8⟩

/-- Registry state after `add_connection("u","c1")` from the empty registry. -/
def hubS1 : HubState := ⟨[("c1", "u")], [("u", "c1")], [("c1", "u")]⟩

/-- Registry state after a second login of the same user:
`add_connection("u","c2")` from `hubS1`. -/
def hubS2 : HubState := ⟨[("c2", "u"), ("c1", "u")], [("u", "c2")], [("c2", "u"), ("c1", "u")]⟩

/-- Registry state after the first connection's cleanup runs in `hubS2`. -/
def hubS3 : HubState := ⟨[("c2", "u")], [], [("c2", "u")]⟩

/-! ## Helper lemmas -/

theorem le_str_iff (a b : String) : le_str a b ↔ a ≤ b :=
  String.le_iff_toList_le.symm

theorem sortStrings_pair (u v : String) :
    sortStrings [u, v] = if le_str u v then [u, v] else [v, u] := by
  by_cases h : le_str u v <;>
    simp [sortStrings, List.insertionSort, List.orderedInsert, h]

theorem private_chat_id_eq (u v : String) :
    private_chat_id u v =
      if u ≤ v then "private:" ++ u ++ "-" ++ v else "private:" ++ v ++ "-" ++ u := by
  by_cases h : u ≤ v
  · rw [private_chat_id, sortStrings_pair, if_pos ((le_str_iff u v).mpr h), if_pos h]
    rfl
  · rw [private_chat_id, sortStrings_pair, if_neg (fun hc => h ((le_str_iff u v).mp hc)),
      if_neg h]
    rfl

theorem sortStrings_perm_eq {l m : List String} (h : List.Perm l m) :
    sortStrings l = sortStrings m :=
  List.eq_of_perm_of_sorted
    (((List.perm_insertionSort le_str l).trans h).trans (List.perm_insertionSort le_str m).symm)
    (List.sorted_insertionSort le_str l) (List.sorted_insertionSort le_str m)

theorem terminated_eq_join : ∀ (lines : List String), lines ≠ [] →
    terminated_lines lines = join_sep "\n" lines ++ "\n"
  | [x], _ => by simp [terminated_lines, join_sep]
  | x :: y :: t, _ => by
      have ih := terminated_eq_join (y :: t) (List.cons_ne_nil y t)
      show x ++ "\n" ++ terminated_lines (y :: t) = join_sep "\n" (x :: y :: t) ++ "\n"
      rw [ih]
      show x ++ "\n" ++ (join_sep "\n" (y :: t) ++ "\n")
        = (x ++ "\n" ++ join_sep "\n" (y :: t)) ++ "\n"
      simp [String.append_assoc]

theorem join_sep_singleton (sep x : String) : join_sep sep [x] = x := rfl

/-! ## Theorems on the claims -/

/-- C7: the private chat identifier is symmetric and equals
`"private:" + min(u,v) + "-" + max(u,v)` under the lexicographic order of the
two ids; `send_private_message`, `get_private_messages` and
`delete_private_messages` all derive it through `private_chat_id` (their three
textually identical derivations in messages.rs are that single definition
here). -/
theorem private_chat_id_symmetric (u v : String) (h : u ≠ v) :
    private_chat_id u v = private_chat_id v u ∧
    private_chat_id u v = "private:" ++ min u v ++ "-" ++ max u v := by
  constructor
  · rcases le_total u v with huv | hvu
    · rcases lt_or_eq_of_le huv with hlt | heq
      · rw [private_chat_id_eq, private_chat_id_eq, if_pos huv, if_neg (not_le_of_lt hlt)]
      · exact absurd heq h
    · rcases lt_or_eq_of_le hvu with hlt | heq
      · rw [private_chat_id_eq, private_chat_id_eq, if_neg (not_le_of_lt hlt), if_pos hvu]
      · exact absurd heq.symm h
  · rcases le_total u v with huv | hvu
    · rw [private_chat_id_eq, if_pos huv, min_eq_left huv, max_eq_right huv]
    · rcases lt_or_eq_of_le hvu with hlt | heq
      · rw [private_chat_id_eq, if_neg (not_le_of_lt hlt), min_eq_right hvu, max_eq_left hvu]
      · rw [heq, private_chat_id_eq, min_self, max_self, if_pos le_rfl]

theorem private_chat_id_symmetric_witness :
    ("u1" : String) ≠ "u2" ∧
    (private_chat_id "u1" "u2" = private_chat_id "u2" "u1" ∧
     private_chat_id "u1" "u2" = "private:" ++ min "u1" "u2" ++ "-" ++ max "u1" "u2") :=
  ⟨by decide, private_chat_id_symmetric "u1" "u2" (by decide)⟩

/-- C1 (code bug): the dispatcher of connection.rs answers
`ERR: Unknown or invalid command` to the very command lines the repository's
own client constructs (`/send_private_message`, `/send_group_message`,
chat_service.rs lines 330 and 366), although the session is valid, the
recipient exists and the sender is a group member; the commands actually
routed to the send operations are `/send` and `/send_private`. -/
theorem dispatcher_rejects_client_send_commands :
    (handle_line dbA cfgPlain 0 "n0" [] (client_private_send_line "tok" "bob" "hi")).2
        = some "ERR: Unknown or invalid command\n" ∧
    (handle_line dbA cfgPlain 0 "n0" [] (client_group_send_line "tok" "g" "hi")).2
        = some "ERR: Unknown or invalid command\n" ∧
    validate_session dbA "tok" = some "u1" ∧
    find_user_id dbA "bob" = some "u2" ∧
    is_member dbA "g" "u1" = true ∧
    (Server.handle_command dbA cfgPlain 0 "n0" [] "/send_private" ["tok", "bob", "hi"]).2
        = "OK: Message sent" ∧
    (Server.handle_command dbA cfgPlain 0 "n0" [] "/send" ["tok", "g", "hi"]).2
        = "OK: Message sent" := by
  decide

/-- C2 (counterexample): the wire bytes of a successful one-message
`/get_private_messages` batch end after the single content line's `"\n"`;
the empty terminator line the claim requires for non-empty batches is not
written. -/
theorem multiline_frame_counterexample :
    wire_bytes (get_private_messages dbA [⟨0, "private:u1-u2", "u2", .plain "hi", 5⟩]
        "tok" "bob" cfgPlain)
      = "OK: Messages:\n[5] bob: hi\n" ∧
    spec_multiline_frame ["[5] bob: hi"] = "OK: Messages:\n[5] bob: hi\n\n" ∧
    ("OK: Messages:\n[5] bob: hi\n" : String) ≠ "OK: Messages:\n[5] bob: hi\n\n" := by
  decide

/-- C3 (counterexample): in a private retrieval a stored envelope that fails
decryption is rendered with the raw stored string (`msg.clone()` in
messages.rs line 305), not with the `[DECRYPTION FAILED]` placeholder. -/
theorem decryption_failure_counterexample :
    decrypt_message_from_storage (.envelope ⟨"hi", "wrongkey"⟩ "n0")
        (sortStrings ["u1", "u2"]) cfgEnc = Except.error "Decryption failed" ∧
    get_private_messages dbA [⟨0, "private:u1-u2", "u2", .envelope ⟨"hi", "wrongkey"⟩ "n0", 5⟩]
        "tok" "bob" cfgEnc
      = "OK: Messages:\n[5] bob: \x7b\"ciphertext\":\"hi#wrongkey\",\"nonce\":\"n0\"\x7d" ∧
    ("OK: Messages:\n[5] bob: \x7b\"ciphertext\":\"hi#wrongkey\",\"nonce\":\"n0\"\x7d" : String)
      ≠ "OK: Messages:\n[5] bob: [DECRYPTION FAILED]" := by
  decide

/-- C4 (counterexample): a message command whose token fails validation
answers `ERR: Invalid session` (messages.rs), not the claimed
`ERR: Invalid or expired session`. -/
theorem session_error_string_counterexample :
    validate_session dbA "badtok" = none ∧
    (Server.handle_command dbA cfgPlain 0 "n0" [] "/get_private_messages" ["badtok", "bob"]).2
      = "ERR: Invalid session" ∧
    ("ERR: Invalid session" : String) ≠ "ERR: Invalid or expired session" := by
  decide

/-- C5 (counterexample): the query contract `ORDER BY sent_at ASC` admits an
output that places the row with the larger `id` first among two rows with
equal `sent_at`, so retrieval is not guaranteed to be `(sent_at ASC, id ASC)`
sorted. -/
theorem retrieval_order_counterexample :
    order_by_sent_at_asc
        [⟨1, "c", "s", .plain "m", 5⟩, ⟨2, "c", "s", .plain "m", 5⟩] "c"
        [⟨2, "c", "s", .plain "m", 5⟩, ⟨1, "c", "s", .plain "m", 5⟩] ∧
    ¬ ([⟨2, "c", "s", .plain "m", 5⟩,
        (⟨1, "c", "s", .plain "m", 5⟩ : MsgRow)].Pairwise claimed_msg_order) := by
  decide

/-- C6 (counterexample): a request with an invalid session token and an
over-long message receives the length error, because `send_private_message`
checks the length before validating the session. -/
theorem send_check_order_counterexample :
    validate_session dbA "badtok" = none ∧
    (send_private_message dbA "badtok" "bob" "aaaaaaaaa" cfgShort 0 "n0").2
      = "ERR: Message too long (max 8 chars)" ∧
    ("ERR: Message too long (max 8 chars)" : String) ≠ "ERR: Invalid session" ∧
    ("ERR: Message too long (max 8 chars)" : String) ≠ "ERR: Invalid or expired session" := by
  decide

/-- C8 (counterexample): the line `/send_private tok bob a  b`, whose message
substring after the fixed arguments is `a  b`, is stored as `a b`: the
dispatcher re-joins the whitespace-split tokens with single spaces, collapsing
the interior run of spaces. -/
theorem trailing_message_counterexample :
    ("/send_private tok bob " ++ "a  b" : String) = "/send_private tok bob a  b" ∧
    (handle_line dbA cfgPlain 7 "n0" [] "/send_private tok bob a  b").1.messages
      = [⟨0, "private:u1-u2", "u1", .plain "a b", 7⟩] ∧
    ("a b" : String) ≠ "a  b" := by
  decide

/-- C2 (amended): for every successful retrieval the bytes written to the
connection are the header line `OK: Messages:\n`, the content lines joined
with `"\n"`, and one final `"\n"`; the empty-line terminator of the spec is
present exactly when the batch is empty, and for a non-empty batch the bytes
fall one `"\n"` short of the spec's framing. -/
theorem multiline_frame_amended (db : Db) (rows : List MsgRow) (cfg : ServerConfig)
    (tok other grp uid oid : String)
    (hval : validate_session db tok = some uid)
    (hfind : find_user_id db other = some oid)
    (hgrp : group_exists db grp = true)
    (hmem : is_member db grp uid = true) :
    wire_bytes (get_private_messages db rows tok other cfg) =
      "OK: Messages:\n" ++
        join_sep "\n" (private_chat_lines rows uid ((lookup_username db uid).getD "Unknown")
          other (sortStrings [uid, oid]) cfg) ++ "\n" ∧
    wire_bytes (get_group_messages db rows tok grp cfg) =
      "OK: Messages:\n" ++
        join_sep "\n" (group_chat_lines db rows (members_of db grp) cfg) ++ "\n" ∧
    (rows = [] →
        wire_bytes (get_private_messages db rows tok other cfg) = spec_multiline_frame []) ∧
    (∀ lines : List String, lines ≠ [] →
        wire_bytes ("OK: Messages:\n" ++ join_sep "\n" lines) ≠ spec_multiline_frame lines) := by
  have hpriv : get_private_messages db rows tok other cfg =
      "OK: Messages:\n" ++ join_sep "\n" (private_chat_lines rows uid
        ((lookup_username db uid).getD "Unknown") other (sortStrings [uid, oid]) cfg) := by
    simp only [get_private_messages, hval, hfind]
  have hgrpresp : get_group_messages db rows tok grp cfg =
      "OK: Messages:\n" ++ join_sep "\n" (group_chat_lines db rows (members_of db grp) cfg) := by
    simp only [get_group_messages, hval, hgrp, hmem]
    simp
  refine ⟨?_, ?_, ?_, ?_⟩
  · rw [hpriv]; rfl
  · rw [hgrpresp]; rfl
  · intro hrows
    subst hrows
    rw [hpriv]
    rfl
  · intro lines hne
    rw [wire_bytes, spec_multiline_frame, terminated_eq_join lines hne]
    intro hcontra
    have h2 := congrArg String.length hcontra
    simp only [String.length_append] at h2
    rw [show ("\n" : String).length = 1 from rfl] at h2
    omega

theorem multiline_frame_amended_witness :
    wire_bytes (get_private_messages dbA [⟨0, "private:u1-u2", "u2", .plain "hi", 5⟩]
        "tok" "bob" cfgPlain)
      = "OK: Messages:\n[5] bob: hi\n" :=
  ((multiline_frame_amended dbA [⟨0, "private:u1-u2", "u2", .plain "hi", 5⟩] cfgPlain
      "tok" "bob" "g" "u1" "u2" (by decide) (by decide) (by decide) (by decide)).1).trans
    (by decide)

/-- C3 (amended): a decryption failure never aborts a retrieval batch — every
stored row yields exactly one content line in both retrievals — and the
failing row's line carries the literal `[DECRYPTION FAILED]` placeholder in a
group retrieval, but the raw stored string (`msg.clone()`) in a private
retrieval. -/
theorem decryption_failure_amended (db : Db) (rows : List MsgRow) (gm ids : List String)
    (cfg : ServerConfig) (uid myu other : String) :
    (group_chat_lines db rows gm cfg).length = rows.length ∧
    (private_chat_lines rows uid myu other ids cfg).length = rows.length ∧
    (∀ (i : Nat) (r : MsgRow) (e : String), rows[i]? = some r →
        decrypt_message_from_storage r.message gm cfg = Except.error e →
        (group_chat_lines db rows gm cfg)[i]? =
          some (format_msg_line r.sent_at ((lookup_username db r.sender_id).getD r.sender_id)
            "[DECRYPTION FAILED]")) ∧
    (∀ (i : Nat) (r : MsgRow) (e : String), rows[i]? = some r →
        decrypt_message_from_storage r.message ids cfg = Except.error e →
        (private_chat_lines rows uid myu other ids cfg)[i]? =
          some (format_msg_line r.sent_at (if r.sender_id = uid then myu else other)
            r.message.raw)) := by
  refine ⟨by simp [group_chat_lines], by simp [private_chat_lines], ?_, ?_⟩
  · intro i r e hr hd
    simp [group_chat_lines, List.getElem?_map, hr, hd]
  · intro i r e hr hd
    simp [private_chat_lines, List.getElem?_map, hr, hd]

theorem decryption_failure_amended_witness :
    (private_chat_lines [⟨0, "private:u1-u2", "u2", .envelope ⟨"hi", "wrongkey"⟩ "n0", 5⟩]
        "u1" "alice" "bob" (sortStrings ["u1", "u2"]) cfgEnc)[0]?
      = some "[5] bob: \x7b\"ciphertext\":\"hi#wrongkey\",\"nonce\":\"n0\"\x7d" :=
  ((decryption_failure_amended dbA
      [⟨0, "private:u1-u2", "u2", .envelope ⟨"hi", "wrongkey"⟩ "n0", 5⟩]
      [] (sortStrings ["u1", "u2"]) cfgEnc "u1" "alice" "bob").2.2.2 0
      ⟨0, "private:u1-u2", "u2", .envelope ⟨"hi", "wrongkey"⟩ "n0", 5⟩ "Decryption failed"
      (by decide) (by decide)).trans (by decide)

/-- C5 (amended): a query output satisfying the code's
`ORDER BY sent_at ASC` contract is a permutation of the chat's stored rows
sorted by `sent_at`; the claimed `(sent_at ASC, id ASC)` order is guaranteed
only when the chat's timestamps are pairwise distinct — equal timestamps have
no id tiebreak. -/
theorem retrieval_order_amended (msgs : List MsgRow) (cid : String) (out : List MsgRow)
    (h : order_by_sent_at_asc msgs cid out)
    (hnd : ((chat_rows msgs cid).map MsgRow.sent_at).Nodup) :
    out.Pairwise claimed_msg_order ∧ List.Perm out (chat_rows msgs cid) := by
  obtain ⟨hperm, hsort⟩ := h
  refine ⟨?_, hperm⟩
  have hnd2 : (out.map MsgRow.sent_at).Nodup := (List.Perm.nodup_iff (hperm.map _)).mpr hnd
  have hne : out.Pairwise (fun a b => a.sent_at ≠ b.sent_at) := List.pairwise_map.mp hnd2
  exact (hsort.and hne).imp (fun h2 => Or.inl (lt_of_le_of_ne h2.1 h2.2))

theorem retrieval_order_amended_witness :
    ([⟨1, "c", "s", .plain "m", 5⟩, (⟨2, "c", "s", .plain "m", 6⟩ : MsgRow)].Pairwise
        claimed_msg_order) ∧
    List.Perm [⟨1, "c", "s", .plain "m", 5⟩, (⟨2, "c", "s", .plain "m", 6⟩ : MsgRow)]
      (chat_rows [⟨1, "c", "s", .plain "m", 5⟩, ⟨2, "c", "s", .plain "m", 6⟩] "c") :=
  retrieval_order_amended
    [⟨1, "c", "s", .plain "m", 5⟩, ⟨2, "c", "s", .plain "m", 6⟩] "c"
    [⟨1, "c", "s", .plain "m", 5⟩, ⟨2, "c", "s", .plain "m", 6⟩]
    (by decide) (by decide)

/-- C6 (amended): `send_private_message` checks in this order: message length
first, then session validation, then recipient resolution; consequently an
over-long message is rejected with the length error regardless of the
session's validity. -/
theorem send_check_order_amended (db : Db) (cfg : ServerConfig) (now : Int)
    (nonce tok to_u msg : String) :
    (cfg.max_message_length < msg.length →
        send_private_message db tok to_u msg cfg now nonce =
          (db, "ERR: Message too long (max " ++ toString cfg.max_message_length ++ " chars)")) ∧
    (msg.length ≤ cfg.max_message_length → validate_session db tok = none →
        send_private_message db tok to_u msg cfg now nonce = (db, "ERR: Invalid session")) ∧
    (∀ uid, msg.length ≤ cfg.max_message_length → validate_session db tok = some uid →
        find_user_id db to_u = none →
        send_private_message db tok to_u msg cfg now nonce = (db, "ERR: User not found")) := by
  refine ⟨?_, ?_, ?_⟩
  · intro hlt
    simp [send_private_message, hlt]
  · intro hle hval
    have hnc : ¬ (msg.length > cfg.max_message_length) := not_lt.mpr hle
    simp [send_private_message, hnc, hval]
  · intro uid hle hval hfind
    have hnc : ¬ (msg.length > cfg.max_message_length) := not_lt.mpr hle
    simp [send_private_message, hnc, hval, hfind]

theorem send_check_order_amended_witness :
    send_private_message dbA "badtok" "bob" "aaaaaaaaa" cfgShort 0 "n0"
      = (dbA, "ERR: Message too long (max 8 chars)") :=
  ((send_check_order_amended dbA cfgShort 0 "n0" "badtok" "bob" "aaaaaaaaa").1
    (by decide)).trans (by decide)

/-- C8 (amended): the trailing message argument of a `/send_private` line is
the remaining whitespace-split tokens re-joined with single spaces
(`args[2..].join(" ")`), not the raw substring of the line: interior
whitespace runs collapse to one space each. -/
theorem trailing_message_amended (db : Db) (cfg : ServerConfig) (now : Int)
    (nonce tok to_u uid tid : String) (rest : List String) (qrows : List MsgRow)
    (hrest : rest ≠ [])
    (henc : cfg.enable_encryption = false)
    (hlen : (join_sep " " rest).length ≤ cfg.max_message_length)
    (hval : validate_session db tok = some uid)
    (hfind : find_user_id db to_u = some tid) :
    Server.handle_command db cfg now nonce qrows "/send_private" (tok :: to_u :: rest) =
      (insert_message db (private_chat_id uid tid) uid
        (StoredMsg.plain (join_sep " " rest)) now, "OK: Message sent") := by
  have hlen3 : 3 ≤ (tok :: to_u :: rest).length := by
    have hp := List.length_pos.mpr hrest
    simp only [List.length_cons]
    omega
  have hnc : ¬ ((join_sep " " rest).length > cfg.max_message_length) := not_lt.mpr hlen
  simp [Server.handle_command, hlen3, send_private_message, hnc, hval, hfind,
    encrypt_message_for_storage, henc, private_chat_id]
  exact hrest

theorem trailing_message_amended_witness :
    Server.handle_command dbA cfgPlain 7 "n0" [] "/send_private" ["tok", "bob", "a", "b"]
      = (insert_message dbA (private_chat_id "u1" "u2") "u1" (StoredMsg.plain "a b") 7,
         "OK: Message sent") :=
  (trailing_message_amended dbA cfgPlain 7 "n0" "tok" "bob" "u1" "u2" ["a", "b"] []
    (by decide) (by decide) (by decide) (by decide) (by decide)).trans (by decide)

/-- C4 (amended): on a failed token validation the commands validated inside
the dispatcher answer exactly `ERR: Invalid or expired session`, while the
message send/get/delete commands — which validate inside messages.rs — answer
exactly `ERR: Invalid session`; an argument-count mismatch falls through to
`ERR: Unknown or invalid command`. -/
theorem session_error_strings_amended (db : Db) (cfg : ServerConfig) (now : Int)
    (nonce : String) (qrows : List MsgRow) (tok g u m : String)
    (hval : validate_session db tok = none)
    (hm : m.length ≤ cfg.max_message_length) :
    (Server.handle_command db cfg now nonce qrows "/create_group" [tok, g]).2
        = "ERR: Invalid or expired session" ∧
    (Server.handle_command db cfg now nonce qrows "/my_groups" [tok]).2
        = "ERR: Invalid or expired session" ∧
    (Server.handle_command db cfg now nonce qrows "/invite" [tok, g, u]).2
        = "ERR: Invalid or expired session" ∧
    (Server.handle_command db cfg now nonce qrows "/accept_invite" [tok, g]).2
        = "ERR: Invalid or expired session" ∧
    (Server.handle_command db cfg now nonce qrows "/reject_invite" [tok, g]).2
        = "ERR: Invalid or expired session" ∧
    (Server.handle_command db cfg now nonce qrows "/my_invites" [tok]).2
        = "ERR: Invalid or expired session" ∧
    (Server.handle_command db cfg now nonce qrows "/join_group" [tok, g]).2
        = "ERR: Invalid or expired session" ∧
    (Server.handle_command db cfg now nonce qrows "/leave_group" [tok, g]).2
        = "ERR: Invalid or expired session" ∧
    (Server.handle_command db cfg now nonce qrows "/validate_session" [tok]).2
        = "ERR: Invalid or expired session" ∧
    (Server.handle_command db cfg now nonce qrows "/send_friend_request" [tok, u]).2
        = "ERR: Invalid or expired session" ∧
    (Server.handle_command db cfg now nonce qrows "/accept_friend_request" [tok, u]).2
        = "ERR: Invalid or expired session" ∧
    (Server.handle_command db cfg now nonce qrows "/reject_friend_request" [tok, u]).2
        = "ERR: Invalid or expired session" ∧
    (Server.handle_command db cfg now nonce qrows "/list_friends" [tok]).2
        = "ERR: Invalid or expired session" ∧
    (Server.handle_command db cfg now nonce qrows "/received_friend_requests" [tok]).2
        = "ERR: Invalid or expired session" ∧
    (Server.handle_command db cfg now nonce qrows "/sent_friend_requests" [tok]).2
        = "ERR: Invalid or expired session" ∧
    (Server.handle_command db cfg now nonce qrows "/send" [tok, g, m]).2
        = "ERR: Invalid session" ∧
    (Server.handle_command db cfg now nonce qrows "/send_private" [tok, u, m]).2
        = "ERR: Invalid session" ∧
    (Server.handle_command db cfg now nonce qrows "/private" [tok, u, m]).2
        = "ERR: Invalid session" ∧
    (Server.handle_command db cfg now nonce qrows "/get_group_messages" [tok, g]).2
        = "ERR: Invalid session" ∧
    (Server.handle_command db cfg now nonce qrows "/get_private_messages" [tok, u]).2
        = "ERR: Invalid session" ∧
    (Server.handle_command db cfg now nonce qrows "/delete_group_messages" [tok, g]).2
        = "ERR: Invalid session" ∧
    (Server.handle_command db cfg now nonce qrows "/delete_private_messages" [tok, u]).2
        = "ERR: Invalid session" ∧
    (Server.handle_command db cfg now nonce qrows "/invite" [tok, g]).2
        = "ERR: Unknown or invalid command" ∧
    (Server.handle_command db cfg now nonce qrows "/get_private_messages" [tok]).2
        = "ERR: Unknown or invalid command" ∧
    (Server.handle_command db cfg now nonce qrows "/send_private" [tok, u]).2
        = "ERR: Unknown or invalid command" := by
  have hnc : ¬ (m.length > cfg.max_message_length) := not_lt.mpr hm
  refine ⟨?_, ?_, ?_, ?_, ?_, ?_, ?_, ?_, ?_, ?_, ?_, ?_, ?_, ?_, ?_, ?_, ?_, ?_, ?_, ?_,
    ?_, ?_, ?_, ?_, ?_⟩ <;>
    simp [Server.handle_command, hval, send_group_message, send_private_message,
      get_group_messages, get_private_messages, delete_group_messages,
      delete_private_messages, join_sep_singleton, hnc]

theorem session_error_strings_amended_witness :
    (Server.handle_command dbA cfgPlain 0 "n0" [] "/create_group" ["badtok", "newg"]).2
      = "ERR: Invalid or expired session" :=
  (session_error_strings_amended dbA cfgPlain 0 "n0" [] "badtok" "newg" "bob" "hi"
    (by decide) (by decide)).1

/-! ## Association-list lemmas for the registry maps -/

theorem lookupA_eraseA_self (m : List (String × String)) (k : String) :
    lookupA (eraseA m k) k = none := by
  induction m with
  | nil => rfl
  | cons p t ih =>
      obtain ⟨a, b⟩ := p
      by_cases hp : a = k <;> simp [eraseA, lookupA, hp, ih]

theorem lookupA_eraseA_ne (m : List (String × String)) (k k' : String) (h : k' ≠ k) :
    lookupA (eraseA m k) k' = lookupA m k' := by
  induction m with
  | nil => rfl
  | cons p t ih =>
      obtain ⟨a, b⟩ := p
      by_cases hp : a = k
      · subst hp
        have hkk : ¬ (a = k') := fun e => h e.symm
        simp [eraseA, lookupA, hkk, ih]
      · by_cases ha : a = k'
        · subst ha
          simp [eraseA, lookupA, hp]
        · simp [eraseA, lookupA, hp, ha, ih]

theorem lookupA_insertA_self (m : List (String × String)) (k v : String) :
    lookupA (insertA m k v) k = some v := by
  simp [lookupA, insertA]

theorem lookupA_insertA_ne (m : List (String × String)) (k v k' : String) (h : k' ≠ k) :
    lookupA (insertA m k v) k' = lookupA m k' := by
  have hk2 : ¬ (k = k') := fun e => h e.symm
  simp [lookupA, insertA, hk2, lookupA_eraseA_ne m k k' h]

theorem hub_inv_step {s t : HubState} (hi : hub_inv s) (hs : HubStep s t) : hub_inv t := by
  obtain ⟨h1, h2, h3⟩ := hi
  cases hs with
  | add_connection user_id client_id fresh_conn fresh_task =>
      refine ⟨?_, ?_, ?_⟩
      · intro u c hl
        dsimp only at hl ⊢
        by_cases hu : u = user_id
        · subst hu
          rw [lookupA_insertA_self] at hl
          cases hl
          exact lookupA_insertA_self _ _ _
        · rw [lookupA_insertA_ne _ _ _ _ hu] at hl
          have hc := h1 u c hl
          have hcne : c ≠ client_id := by
            intro e
            rw [e, fresh_conn] at hc
            cases hc
          rw [lookupA_insertA_ne _ _ _ _ hcne]
          exact hc
      · intro c u hm
        dsimp only at hm ⊢
        rcases List.mem_cons.mp hm with he | ht
        · rw [Prod.mk.injEq] at he
          obtain ⟨hc1, hu1⟩ := he
          subst hc1
          subst hu1
          exact lookupA_insertA_self _ _ _
        · have hc := h2 c u ht
          have hcne : c ≠ client_id := by
            intro e
            rw [e, fresh_conn] at hc
            cases hc
          rw [lookupA_insertA_ne _ _ _ _ hcne]
          exact hc
      · dsimp only
        simp only [List.map_cons]
        refine List.nodup_cons.mpr ⟨?_, h3⟩
        intro hmem
        rcases List.mem_map.mp hmem with ⟨⟨qc, qu⟩, hq, he⟩
        exact fresh_task qu (he ▸ hq)
  | disconnect client_id user_id live =>
      refine ⟨?_, ?_, ?_⟩
      · intro u c hl
        dsimp only at hl ⊢
        by_cases hu : u = user_id
        · subst hu
          rw [lookupA_eraseA_self] at hl
          cases hl
        · rw [lookupA_eraseA_ne _ _ _ hu] at hl
          have hc := h1 u c hl
          have hclive := h2 client_id user_id live
          have hcne : c ≠ client_id := by
            intro e
            rw [e] at hc
            exact hu (Option.some.inj (hc.symm.trans hclive))
          rw [lookupA_eraseA_ne _ _ _ hcne]
          exact hc
      · intro c u hm
        dsimp only at hm ⊢
        have hmem := List.mem_of_mem_erase hm
        have hc := h2 c u hmem
        have hcne : c ≠ client_id := by
          intro e
          subst e
          have hpair : (c, u) = (c, user_id) := List.inj_on_of_nodup_map h3 hmem live rfl
          rw [Prod.mk.injEq] at hpair
          obtain ⟨-, hu1⟩ := hpair
          subst hu1
          have hnd : s.tasks.Nodup := h3.of_map
          exact (((hnd.mem_erase_iff).mp hm).1) rfl
        rw [lookupA_eraseA_ne _ _ _ hcne]
        exact hc
      · exact h3.sublist ((List.erase_sublist _ _).map _)

theorem hub_inv_reachable {s : HubState} (h : HubReachable s) : hub_inv s := by
  induction h with
  | init =>
      refine ⟨?_, ?_, ?_⟩
      · intro u c hl
        cases hl
      · intro c u hm
        cases hm
      · simp
  | step hr hs ih => exact hub_inv_step ih hs

theorem hubS2_reachable : HubReachable hubS2 := by
  have h1 : HubStep ⟨[], [], []⟩ hubS1 :=
    HubStep.add_connection ⟨[], [], []⟩ "u" "c1" rfl (fun _ => List.not_mem_nil _)
  have h2 : HubStep hubS1 hubS2 :=
    HubStep.add_connection hubS1 "u" "c2" (by decide)
      (fun u hm => by
        rw [show hubS1.tasks = [("c1", "u")] from rfl, List.mem_singleton,
          Prod.mk.injEq] at hm
        exact absurd hm.1 (by decide))
  exact HubReachable.step (HubReachable.step HubReachable.init h1) h2

/-- C9 (counterexample): after a second login of the same user the registry
reaches a state with two live `connections` entries for that user (the prior
connection is not removed), violating single-connection-per-user; and the
first connection's cleanup then removes the *new* connection's
`user_connections` entry, leaving a live connection no longer registered for
its user. -/
theorem ws_registry_counterexample :
    HubReachable hubS2 ∧
    ¬ single_conn_per_user hubS2 ∧
    HubStep hubS2 hubS3 ∧
    lookupA hubS3.connections "c2" = some "u" ∧
    lookupA hubS3.user_connections "u" = none := by
  refine ⟨hubS2_reachable, ?_, ?_, by decide, by decide⟩
  · intro h
    have h2 := h "u" "c2" (by decide)
    exact absurd (h2.2 "c1" (by decide)) (by decide)
  · exact HubStep.disconnect hubS2 "c1" "u" (by decide)

/-- C9 (amended): the direction of the registry invariant that does hold in
every reachable state: every `user_connections` entry `u → c` points at a
connection `c` that is present in `connections` with that same user `u`.
The converse fails: `connections` may hold a displaced connection of the same
user after a re-login, and a disconnect removes its user's
`user_connections` binding unconditionally, even when that binding belongs
to a newer connection. -/
theorem ws_registry_amended (s : HubState) (h : HubReachable s) :
    ∀ u c, lookupA s.user_connections u = some c → lookupA s.connections c = some u :=
  (hub_inv_reachable h).1

theorem ws_registry_amended_witness :
    lookupA hubS2.connections "c2" = some "u" :=
  ws_registry_amended hubS2 hubS2_reachable "u" "c2" (by decide)

/-- C10: the encrypt-then-store-then-decrypt round trip of a group message
returns the original plaintext whenever the member set used at read time is
the same set (any order) as the member set used at write time: the chat key
is derived deterministically from the sorted participant list on both sides
(encryption at send time uses the members queried at write time, decryption
at read time the members queried at read time). -/
theorem group_roundtrip_unchanged_membership (cfg : ServerConfig) (msg nonce : String)
    (wmembers rmembers : List String) (enc : StoredMsg)
    (hon : cfg.enable_encryption = true)
    (hperm : List.Perm rmembers wmembers)
    (henc : encrypt_message_for_storage msg wmembers cfg nonce = Except.ok enc) :
    decrypt_message_from_storage enc rmembers cfg = Except.ok msg := by
  have hkey : CryptoManager.generate_chat_key rmembers cfg.encryption_master_key =
      CryptoManager.generate_chat_key wmembers cfg.encryption_master_key := by
    rw [CryptoManager.generate_chat_key, CryptoManager.generate_chat_key,
      sortStrings_perm_eq hperm]
  have henc2 : enc = StoredMsg.envelope
      ⟨msg, CryptoManager.generate_chat_key wmembers cfg.encryption_master_key⟩ nonce := by
    rw [encrypt_message_for_storage, hon] at henc
    simp [CryptoManager.encrypt_message] at henc
    exact henc.symm
  subst henc2
  simp [decrypt_message_from_storage, hon, CryptoManager.decrypt_message, hkey]

theorem group_roundtrip_unchanged_membership_witness :
    decrypt_message_from_storage
        (StoredMsg.envelope ⟨"hi", CryptoManager.generate_chat_key ["a", "b"] "mk"⟩ "n0")
        ["b", "a"] cfgEnc
      = Except.ok "hi" :=
  group_roundtrip_unchanged_membership cfgEnc "hi" "n0" ["a", "b"] ["b", "a"]
    (StoredMsg.envelope ⟨"hi", CryptoManager.generate_chat_key ["a", "b"] "mk"⟩ "n0")
    rfl (by decide) (by decide)

end Ruggine
